import Mathlib

/-!
PaperLens frontend — embedding and verification.

A shallow embedding of the PaperLens client (React/JS frontend) relevant to
the retrieval-augmented question-answering workflow:

* `services/api.js` — `searchPapers`, `fetchPaper`, `askQuestion`,
  `comparePapers` request construction and the localStorage search cache;
* `components/ChatModal.jsx` — `initializePaper`, `handleSendMessage`,
  `quickAsk` and their guards;
* `pages/Dashboard.jsx` / `App.jsx` — `toggleSelectForCompare`, `runCompare`.

JavaScript-specific semantics (truthiness of `undefined`/`""`, the `||`
chain, default parameters) are modelled explicitly.  `Option String` stands
for a JS string field that may be `undefined` (`none`) or a string value
(`some s`, with `some ""` distinct from `none`, as in JS).

The backend (FAISS vector store, RAG pipeline) is not part of the frontend
sources; where a claim depends on it, a definition explicitly modelled from
the specification is used and marked as such in its doc comment.
-/

namespace PaperLens

/-- JS truthiness for an optional string field: `undefined` and `""` are
falsy, every other string is truthy. -/
def jsTruthy : Option String → Bool
  | none => false
  | some s => s != ""

/-- JS whitespace for the purposes of `String.prototype.trim`: space,
tab, line feed, carriage return, vertical tab, form feed (the common
WhiteSpace/LineTerminator code points). -/
def jsWhitespace (c : Char) : Bool :=
  c == ' ' || c == '\t' || c == '\n' || c == '\r' ||
  c == '\x0b' || c == '\x0c'

/-- JS `s.trim()`: strip whitespace from both ends. -/
def jsTrim (s : String) : String :=
  String.mk (((s.data.dropWhile jsWhitespace).reverse.dropWhile
    jsWhitespace).reverse)

/-- JS `s.toLowerCase()` (ASCII case folding). -/
def jsToLower (s : String) : String :=
  String.mk (s.data.map Char.toLower)

/-- JS `a || b` on optional string fields: yields `a` when `a` is truthy,
otherwise the (possibly falsy) value of `b`. -/
def jsOr (a b : Option String) : Option String :=
  if jsTruthy a then a else b

/-- A paper object as handled by the client: `url`, `pdf_url` and the
nested `paper?.url` may each be absent. -/
structure Paper where
  title : String
  authors : String
  year : Option Nat
  abstract : Option String
  url : Option String
  pdf_url : Option String
  nestedUrl : Option String
  deriving Repr, DecidableEq

/-- The URL the client resolves for a paper:
`paper.url || paper.pdf_url || paper.paper?.url`
(ChatModal.jsx `initializePaper`/`handleSendMessage`, Dashboard.jsx
`runCompare`). -/
def resolvedUrl (p : Paper) : Option String :=
  jsOr p.url (jsOr p.pdf_url p.nestedUrl)

/-- The key `toggleSelectForCompare` compares selections by:
`p.url || p.pdf_url` (Dashboard.jsx line 86). Note it does not consult the
nested `paper?.url`. -/
def toggleKey (p : Paper) : Option String :=
  jsOr p.url p.pdf_url

/-- `toggleSelectForCompare` (Dashboard.jsx): if a previously selected
paper has the same `url || pdf_url` key, remove it; otherwise append the
paper to the selection. -/
def toggleSelectForCompare (prev : List Paper) (paper : Paper) : List Paper :=
  if prev.any (fun p => toggleKey p == toggleKey paper) then
    prev.filter (fun p => !(toggleKey p == toggleKey paper))
  else
    prev ++ [paper]

/-- Role of a chat message (ChatModal.jsx `messages` entries). -/
inductive Role where
  | user
  | assistant
  | sys
  deriving Repr, DecidableEq

/-- One entry of ChatModal's `messages` state: content plus the optional
fields attached to assistant answers. -/
structure ChatMsg where
  role : Role
  content : String
  sourceType : Option String := none
  citation : Option String := none
  disclaimer : Option String := none
  deriving Repr, DecidableEq

/-- The ChatModal component state relevant to the claims:
`messages`, `loading`, `paperReady`, `processingPaper`, `sourceType`. -/
structure ChatState where
  messages : List ChatMsg
  loading : Bool
  paperReady : Bool
  processingPaper : Bool
  sourceType : Option String
  deriving Repr, DecidableEq

/-- The initial ChatModal state (`useState` initialisers): no messages,
not loading, paper not ready, processing flag set, no source type. -/
def initialChatState : ChatState :=
  { messages := [], loading := false, paperReady := false,
    processingPaper := true, sourceType := none }

/-- Result of the `/api/fetch-paper` call as consumed by the client
(`fetchPaper` in api.js resolves to the response JSON). -/
structure PrepareResult where
  source_type : String
  deriving Repr, DecidableEq

/-- The status message `initializePaper` computes from the prepare
result's `source_type` (ChatModal.jsx lines 54-63): three recognised
tokens and a catch-all fallback. -/
def sourceMsgFor (t : String) : String :=
  if t == "semantic_scholar_pdf" then
    "📄 Successfully processed full paper (Semantic Scholar PDF)"
  else if t == "arxiv_pdf" then
    "📄 Successfully processed full paper (arXiv PDF)"
  else if t == "metadata" then
    "📋 Using paper metadata only (abstract + title). Full text not available."
  else
    "⚠️ Limited data available. Will use general knowledge when needed."

/-- The four branches of the client's `source_type` dispatch. -/
inductive SourceCase where
  | ssPdf
  | arxivPdf
  | metadata
  | fallback
  deriving Repr, DecidableEq

/-- Which branch of ChatModal.jsx lines 54-63 a `source_type` value
selects. -/
def classifySourceType (t : String) : SourceCase :=
  if t == "semantic_scholar_pdf" then .ssPdf
  else if t == "arxiv_pdf" then .arxivPdf
  else if t == "metadata" then .metadata
  else .fallback

/-- The system message shown when no PDF URL resolves
(ChatModal.jsx lines 30-37). -/
def noUrlMsg : String :=
  "Sorry, no PDF URL found for this paper. Unable to process."

/-- The system message shown when the prepare call throws
(ChatModal.jsx lines 70-79). -/
def prepareFailedMsg : String :=
  "Failed to process the paper. The PDF might not be accessible or there was a processing error. You can still try asking questions."

/-- The greeting posted once the paper is processed
(ChatModal.jsx lines 65-69). -/
def readyMsg (title : String) : String :=
  "I'm ready to answer questions about: \"" ++ title
    ++ "\"\n\nWhat would you like to know?"

/-- `initializePaper` (ChatModal.jsx lines 25-80) as a state function of
the paper and the outcome of the `fetchPaper` network call (`Except`
models the promise rejecting). With no truthy URL it aborts before any
network call, leaving `paperReady = false`; on success it records the
source type and sets `paperReady`; on failure it reports the error but
still sets `paperReady` (without any source type). -/
def initializePaper (p : Paper) (fetch : Except Unit PrepareResult) : ChatState :=
  if !jsTruthy (resolvedUrl p) then
    { messages := [{ role := .sys, content := noUrlMsg }],
      loading := false, paperReady := false, processingPaper := false,
      sourceType := none }
  else
    match fetch with
    | .ok r =>
        { messages := [{ role := .assistant, content := readyMsg p.title,
                         sourceType := some r.source_type }],
          loading := false, paperReady := true, processingPaper := false,
          sourceType := some r.source_type }
    | .error _ =>
        { messages := [{ role := .sys, content := prepareFailedMsg }],
          loading := false, paperReady := true, processingPaper := false,
          sourceType := none }

/-- Body of the `/api/ask-question` request issued by `askQuestion`
(api.js lines 94-113). -/
structure AskRequest where
  pdf_url : Option String
  question : String
  deriving Repr, DecidableEq

/-- Response of `/api/ask-question` as consumed by the client. -/
structure AnswerResp where
  answer : String
  source_type : Option String := none
  citation : Option String := none
  disclaimer : Option String := none
  deriving Repr, DecidableEq

/-- `handleSendMessage` (ChatModal.jsx lines 82-125): returns the
`askQuestion` request issued (`none` when the guard
`!input.trim() || loading || !paperReady` blocks the attempt) and the
resulting state, given the network outcome of the ask call. -/
def handleSendMessage (p : Paper) (st : ChatState) (input : String)
    (net : Except Unit AnswerResp) : Option AskRequest × ChatState :=
  if jsTrim input == "" || st.loading || !st.paperReady then
    (none, st)
  else
    let userMessage := jsTrim input
    let req : AskRequest := { pdf_url := resolvedUrl p, question := userMessage }
    match net with
    | .ok r =>
        (some req,
         { st with
            messages := st.messages
              ++ [{ role := .user, content := userMessage },
                  { role := .assistant, content := r.answer,
                    sourceType := r.source_type, citation := r.citation,
                    disclaimer := r.disclaimer }],
            loading := false })
    | .error _ =>
        (some req,
         { st with
            messages := st.messages
              ++ [{ role := .user, content := userMessage },
                  { role := .sys, content := "Failed to get answer. Please try again." }],
            loading := false })

/-- `quickAsk` (ChatModal.jsx lines 127-156): same shape as
`handleSendMessage` but guarded only by `loading || !paperReady`, and the
assistant message uses `response.answer || 'No answer.'` and carries no
citation field. -/
def quickAsk (p : Paper) (st : ChatState) (template : String)
    (net : Except Unit AnswerResp) : Option AskRequest × ChatState :=
  if st.loading || !st.paperReady then
    (none, st)
  else
    let req : AskRequest := { pdf_url := resolvedUrl p, question := template }
    match net with
    | .ok r =>
        (some req,
         { st with
            messages := st.messages
              ++ [{ role := .user, content := template },
                  { role := .assistant,
                    content := if r.answer == "" then "No answer." else r.answer,
                    sourceType := r.source_type,
                    disclaimer := r.disclaimer }],
            loading := false })
    | .error _ =>
        (some req,
         { st with
            messages := st.messages
              ++ [{ role := .user, content := template },
                  { role := .sys, content := "Failed to get answer. Try again." }],
            loading := false })

/-- The `paper_info` object built by `runCompare` for each valid paper
(Dashboard.jsx lines 101-107 and 119-125). -/
structure PaperInfo where
  title : String
  authors : String
  year : Option Nat
  abstract : Option String
  url : Option String
  deriving Repr, DecidableEq

/-- Body of one `/api/fetch-paper` request issued by `runCompare` while
ensuring each paper's vector store exists (Dashboard.jsx lines 98-109). -/
structure FetchRequest where
  pdf_url : Option String
  paper_title : String
  paper_info : PaperInfo
  deriving Repr, DecidableEq

/-- Body of the `/api/compare-papers` request (api.js lines 115-134,
built in Dashboard.jsx lines 111-127): the `paper_ids` field carries the
resolved URLs as placeholders, the backend keys off `papers_info`. -/
structure CompareRequest where
  paper_ids : List (Option String)
  papers_info : List PaperInfo
  comparison_query : String
  deriving Repr, DecidableEq

/-- Everything `runCompare` sends over the network once it proceeds: the
per-paper prepare calls and the single compare call. -/
structure CompareAction where
  fetches : List FetchRequest
  compare : CompareRequest
  deriving Repr, DecidableEq

/-- The papers `runCompare` deems valid: those whose
`url || pdf_url || paper?.url` is truthy (Dashboard.jsx line 93).
No deduplication by that key is performed. -/
def validForCompare (sel : List Paper) : List Paper :=
  sel.filter (fun p => jsTruthy (resolvedUrl p))

/-- The `paper_info` payload `runCompare` builds for a paper. -/
def paperInfoOf (p : Paper) : PaperInfo :=
  { title := p.title, authors := p.authors, year := p.year,
    abstract := p.abstract, url := resolvedUrl p }

/-- `runCompare` (Dashboard.jsx lines 92-135 / App.jsx lines 358-401) up
to its network effects: with fewer than 2 valid papers it returns early
(`none`, nothing sent); otherwise it issues one `fetchPaper` per valid
paper and one `comparePapers` call covering all of them. -/
def runCompareAction (sel : List Paper) (q : String) : Option CompareAction :=
  let valid := validForCompare sel
  if valid.length < 2 then none
  else
    some { fetches := valid.map (fun p =>
             { pdf_url := resolvedUrl p, paper_title := p.title,
               paper_info := paperInfoOf p }),
           compare := { paper_ids := valid.map resolvedUrl,
                        papers_info := valid.map paperInfoOf,
                        comparison_query := q } }

/-- The distinct resolvable URL keys among a selection (used to state the
distinctness clause of the comparison precondition). -/
def distinctResolvedUrls (sel : List Paper) : List (Option String) :=
  ((validForCompare sel).map resolvedUrl).dedup

/-- The filter payload `fetchPapers` builds in App.jsx (`buildFilterPayload`,
lines 171-202) and passes to `searchPapers` as the `filters` field. -/
structure FilterPayload where
  open_access : Option Bool := none
  year_min : Option Int := none
  year_max : Option Int := none
  min_citations : Option Int := none
  venues : List String := []
  publication_types : List String := []
  deriving Repr, DecidableEq

/-- The argument object of `searchPapers` as supplied by callers
(App.jsx `fetchPapers`, lines 204-230). `searchPapers` destructures only
`query`, `page` and `pageSize`; `page` and `pageSize` default to 1 and 5
when absent (JS default parameters). -/
structure SearchArgs where
  query : Option String := none
  page : Option Nat := none
  pageSize : Option Nat := none
  filters : Option FilterPayload := none
  deriving Repr, DecidableEq

/-- Body of the `/api/search` POST request (api.js lines 52-59). -/
structure SearchRequest where
  query : String
  page : Nat
  page_size : Nat
  deriving Repr, DecidableEq

/-- One localStorage entry as written by `setCachedData`
(api.js lines 23-32): the cached data with its write timestamp. -/
structure CacheEntry where
  key : String
  data : String
  timestamp : Nat
  deriving Repr, DecidableEq

/-- `getCachedData` (api.js lines 6-20): the stored data is returned only
when the entry exists and is less than one hour (3600000 ms) old. -/
def getCachedData (now : Nat) (cache : List CacheEntry) (key : String) :
    Option String :=
  match cache.find? (fun e => e.key == key) with
  | some e => if now - e.timestamp < 3600000 then some e.data else none
  | none => none

/-- `setCachedData` (api.js lines 23-32): stores the data under the key,
stamped with the current time (localStorage setItem replaces any previous
value for the key). -/
def setCachedData (now : Nat) (cache : List CacheEntry) (key : String)
    (data : String) : List CacheEntry :=
  { key := key, data := data, timestamp := now }
    :: cache.filter (fun e => !(e.key == key))

/-- The cache key `searchPapers` computes (api.js lines 42-43):
`search_` + lowercased-trimmed query + `_` + page + `_` + pageSize. -/
def searchCacheKey (query : String) (page pageSize : Nat) : String :=
  "search_" ++ jsTrim (jsToLower query) ++ "_" ++ toString page ++ "_"
    ++ toString pageSize

/-- Full observable outcome of one `searchPapers` call: the value
returned or error thrown, the cache afterwards, the cache keys read, and
the request sent to the backend (if any). -/
structure SearchRun where
  result : Except String String
  cacheAfter : List CacheEntry
  cacheReads : List String
  fetched : Option SearchRequest
  deriving Repr

/-- `searchPapers` (api.js lines 36-71) over an abstract backend
(`none` models a non-ok HTTP response) and the localStorage cache.
Response payloads are abstracted as strings. The guard throws
`Query is required` when `query` is absent, empty, or whitespace-only,
before the cache is read and before any request is sent; a fresh cache
hit short-circuits the network; otherwise the response is fetched and
cached. The `filters` field of the argument is never read. -/
def searchPapers (backend : SearchRequest → Option String) (now : Nat)
    (cache : List CacheEntry) (a : SearchArgs) : SearchRun :=
  match a.query with
  | none =>
      { result := .error "Query is required", cacheAfter := cache,
        cacheReads := [], fetched := none }
  | some q =>
      if q == "" || jsTrim q == "" then
        { result := .error "Query is required", cacheAfter := cache,
          cacheReads := [], fetched := none }
      else
        let page := a.page.getD 1
        let pageSize := a.pageSize.getD 5
        let cacheKey := searchCacheKey q page pageSize
        match getCachedData now cache cacheKey with
        | some cached =>
            { result := .ok cached, cacheAfter := cache,
              cacheReads := [cacheKey], fetched := none }
        | none =>
            let req : SearchRequest :=
              { query := q, page := page, page_size := pageSize }
            match backend req with
            | none =>
                { result := .error "Failed to fetch papers",
                  cacheAfter := cache, cacheReads := [cacheKey],
                  fetched := some req }
            | some data =>
                { result := .ok data,
                  cacheAfter := setCachedData now cache cacheKey data,
                  cacheReads := [cacheKey], fetched := some req }

/-- A source record as produced by the backend Source Resolver
(spec §4.1 / data model §3). -/
structure SourceRecord where
  source_type : String
  raw_text : Option String
  deriving Repr, DecidableEq

/-- Modelled from the spec: the backend Source Resolver (`resolve`,
spec §4.1) is not under the frontend sources (the repository ships only
the backend README). It tries the full-text source for the reference's
URL; if extraction succeeds the record carries the full text; if it
fails but the abstract is non-empty it falls back to a metadata-only
record grounded on title+abstract; with no usable URL and no abstract it
returns `unavailable`. The wire token for the metadata-only case is
`metadata`, the one the client dispatches on (ChatModal.jsx line 59);
the extracted-PDF token is `semantic_scholar_pdf` (ChatModal.jsx line
55). `pdfFetch` maps a URL to its extractable text, `none` meaning the
URL is unreachable or yields no text. -/
def resolveSource (pdfFetch : String → Option String) (ref : PaperInfo) :
    SourceRecord :=
  let fallback : SourceRecord :=
    match ref.abstract with
    | some ab =>
        if ab == "" then { source_type := "unavailable", raw_text := none }
        else { source_type := "metadata",
               raw_text := some (ref.title ++ "\n\n" ++ ab) }
    | none => { source_type := "unavailable", raw_text := none }
  match ref.url with
  | some u =>
      if u == "" then fallback
      else
        match pdfFetch u with
        | some text => { source_type := "semantic_scholar_pdf",
                         raw_text := some text }
        | none => fallback
  | none => fallback

/-- Modelled from the spec: whether a source type puts the Answer Engine
in the degraded `ready(degraded)` state (spec §4.5): metadata-only or
unavailable grounding. -/
def isDegraded (sourceType : String) : Bool :=
  sourceType == "metadata" || sourceType == "unavailable"

/-- Modelled from the spec: the backend Answer Engine's answer assembly
(`answer`, spec §4.5), not under the frontend sources. In the degraded
state it sets the disclaimer and omits the citation; with full text it
attaches a citation and no disclaimer. `gen` abstracts the generation
capability. -/
def answerFor (sr : SourceRecord) (question : String)
    (gen : String → String) (citationOf : String → String) : AnswerResp :=
  if isDegraded sr.source_type then
    { answer := gen question, source_type := some sr.source_type,
      citation := none, disclaimer := some "limited data available" }
  else
    { answer := gen question, source_type := some sr.source_type,
      citation := some (citationOf question), disclaimer := none }

/-- A built per-paper vector index entry (spec §3 `VectorIndex`,
abstracted to the data the claims mention). -/
structure IndexEntry where
  sourceType : String
  text : Option String
  deriving Repr, DecidableEq

/-- The Vector Store Manager's state: the `PaperId → VectorIndex` map
plus the build-count instrumentation the spec's idempotence property
refers to (spec §8). -/
structure StoreState where
  indices : List (String × IndexEntry)
  buildCount : Nat
  deriving Repr, DecidableEq

/-- Lookup in the per-paper index map. -/
def lookupIndex : List (String × IndexEntry) → String → Option IndexEntry
  | [], _ => none
  | (k, e) :: rest, pid => if k == pid then some e else lookupIndex rest pid

/-- Modelled from the spec: `PaperId` is a stable deterministic
identifier derived from the source URL (spec §3); any injective pure
function of the URL satisfies the contract, so the URL itself is used. -/
def paperIdOf (url : String) : String := url

/-- Modelled from the spec: the Vector Store Manager's `ensure_index`
(spec §4.4), not under the frontend sources: return the existing index
for the paper id if one is built, otherwise build one (counted by the
instrumentation) and record it. -/
def ensureIndex (pid : String) (sr : SourceRecord) (s : StoreState) :
    IndexEntry × StoreState :=
  match lookupIndex s.indices pid with
  | some e => (e, s)
  | none =>
      let e : IndexEntry := { sourceType := sr.source_type,
                              text := sr.raw_text }
      (e, { indices := (pid, e) :: s.indices,
            buildCount := s.buildCount + 1 })

/-- Result of the external `prepare` call (spec §6). -/
structure PrepareOutcome where
  source_type : String
  ready : Bool
  deriving Repr, DecidableEq

/-- Modelled from the spec: the external `prepare(paper_reference)`
call (spec §6), not under the frontend sources: resolve the source,
derive the paper id from the URL, ensure the index, and report the
stored source type with `ready`. -/
def prepare (pdfFetch : String → Option String) (ref : PaperInfo)
    (s : StoreState) : PrepareOutcome × StoreState :=
  let sr := resolveSource pdfFetch ref
  let pid := paperIdOf (ref.url.getD "")
  let (e, s') := ensureIndex pid sr s
  ({ source_type := e.sourceType, ready := true }, s')

/-! Theorems.  Each claim of the specification audit is settled below;
counterexample inputs are concrete `Paper` values mirroring search
results the client can hold. -/

/-- A selected paper whose resolvable URL comes from its `url` field. -/
def cexPaperA : Paper :=
  { title := "A", authors := "X", year := some 2020, abstract := none,
    url := some "http://x/a.pdf", pdf_url := none, nestedUrl := none }

/-- A selected paper resolving to the same URL as `cexPaperA`, but only
through the nested `paper?.url` field, which `toggleSelectForCompare`'s
deduplication key does not consult. -/
def cexPaperB : Paper :=
  { title := "B", authors := "Y", year := some 2021, abstract := none,
    url := none, pdf_url := none, nestedUrl := some "http://x/a.pdf" }

/-- C1, counterexample: starting from an empty selection, toggling
`cexPaperA` then `cexPaperB` leaves both selected (their dedup keys
`url || pdf_url` differ), both count as valid for comparison, yet they
resolve to a single distinct URL key — and `runCompare` still proceeds,
issuing prepare and compare requests instead of rejecting the request
for having fewer than 2 distinct papers. -/
theorem runCompare_single_distinct_url_proceeds :
    toggleSelectForCompare (toggleSelectForCompare [] cexPaperA) cexPaperB
      = [cexPaperA, cexPaperB]
    ∧ distinctResolvedUrls [cexPaperA, cexPaperB] = [some "http://x/a.pdf"]
    ∧ (runCompareAction [cexPaperA, cexPaperB] "Compare the methodologies used in each paper.").isSome
        = true := by
  decide

/-- C1, amended: `runCompare` proceeds exactly when at least 2 of the
selected papers have a truthy resolvable URL (`url || pdf_url ||
paper?.url`), with no deduplication of those URLs; when it is rejected
nothing is sent, and when it proceeds it issues one prepare request per
valid paper and a single compare request covering all of them with the
given aspect query. -/
theorem runCompare_valid_count_gate (sel : List Paper) (q : String) :
    ((runCompareAction sel q).isSome ↔ 2 ≤ (validForCompare sel).length)
    ∧ (runCompareAction sel q).map
        (fun act => (act.fetches.length, act.compare.papers_info.length,
                     act.compare.comparison_query))
      = if 2 ≤ (validForCompare sel).length then
          some ((validForCompare sel).length, (validForCompare sel).length, q)
        else none := by
  unfold runCompareAction
  by_cases h : (validForCompare sel).length < 2
  · simp [h, Nat.not_le.mpr h]
  · have h2 : 2 ≤ (validForCompare sel).length := Nat.not_lt.mp h
    simp [h, h2]

/-- A paper reference with no usable URL anywhere and no abstract. -/
def cexNoUrlPaper : Paper :=
  { title := "Ghost paper", authors := "Z", year := none, abstract := none,
    url := none, pdf_url := none, nestedUrl := none }

/-- C2, counterexample: a paper with no usable URL and no abstract is
not prepared at all — the client posts the "no PDF URL found … Unable to
process." system message, never marks the paper ready, and every
subsequent question attempt is blocked (no ask request is issued), so
the unavailable case is surfaced as an error that prevents asking
questions, not answered from general knowledge. -/
theorem noUrl_noAbstract_blocks_questions :
    (initializePaper cexNoUrlPaper (Except.error ())).paperReady = false
    ∧ (initializePaper cexNoUrlPaper (Except.error ())).messages
        = [{ role := .sys, content := noUrlMsg }]
    ∧ (handleSendMessage cexNoUrlPaper
        (initializePaper cexNoUrlPaper (Except.error ()))
        "What does the paper study?"
        (Except.ok { answer := "It studies X." })).1 = none := by
  decide

/-- C2, amended: for every paper reference with no usable URL the client
aborts preparation with the "no PDF URL found" system error message, the
paper never becomes ready, and every question attempt is blocked with no
ask request issued. -/
theorem initializePaper_noUrl_aborts (p : Paper)
    (fetch : Except Unit PrepareResult)
    (h : jsTruthy (resolvedUrl p) = false) :
    initializePaper p fetch
      = { messages := [{ role := .sys, content := noUrlMsg }],
          loading := false, paperReady := false, processingPaper := false,
          sourceType := none }
    ∧ ∀ (input : String) (net : Except Unit AnswerResp),
        handleSendMessage p (initializePaper p fetch) input net
          = (none, initializePaper p fetch) := by
  have hinit : initializePaper p fetch
      = { messages := [{ role := .sys, content := noUrlMsg }],
          loading := false, paperReady := false, processingPaper := false,
          sourceType := none } := by
    unfold initializePaper
    simp [h]
  refine ⟨hinit, fun input net => ?_⟩
  rw [hinit]
  unfold handleSendMessage
  simp

/-- C2, witness for the amended theorem at the concrete no-URL paper. -/
theorem initializePaper_noUrl_aborts_witness :
    (initializePaper cexNoUrlPaper (Except.error ())).paperReady = false
    ∧ handleSendMessage cexNoUrlPaper
        (initializePaper cexNoUrlPaper (Except.error ())) "Hi"
        (Except.error ())
      = (none, initializePaper cexNoUrlPaper (Except.error ())) := by
  have h := initializePaper_noUrl_aborts cexNoUrlPaper (Except.error ())
    (by decide)
  exact ⟨by rw [h.1], h.2 "Hi" (Except.error ())⟩

/-- The end-to-end scenario reference: fetch of the PDF fails, abstract
present. -/
def cexMetaRef : PaperInfo :=
  { title := "A", authors := "X", year := some 2020,
    abstract := some "Studies X.", url := some "http://x/a.pdf" }

/-- A ready chat state (the one `initializePaper` produces for
`cexPaperA` on a successful prepare). -/
def cexReadyState : ChatState :=
  initializePaper cexPaperA (Except.ok { source_type := "arxiv_pdf" })

/-- C3, counterexample: the client's `source_type` dispatch sends the
value `metadata_only` to the generic fallback branch — the same branch
as any unrecognised token — while the branch dedicated to metadata-only
grounding is keyed on the value `metadata`.  The metadata-only marker
the client consumes is therefore `metadata`, not `metadata_only`. -/
theorem metadataOnly_token_not_recognised :
    classifySourceType "metadata_only" = SourceCase.fallback
    ∧ classifySourceType "metadata" = SourceCase.metadata
    ∧ sourceMsgFor "metadata_only" = sourceMsgFor "some_unknown_token" := by
  decide

/-- C3, amended: a reference with an unreachable URL but non-empty
abstract is prepared with `source_type = "metadata"` (the client's
metadata-only token), and every answer assembled in that degraded state
carries a disclaimer and no citation. -/
theorem metadata_mode_disclaimer_no_citation
    (pdfFetch : String → Option String) (ref : PaperInfo) (u ab : String)
    (hu : ref.url = some u) (hne : u ≠ "") (hfetch : pdfFetch u = none)
    (hab : ref.abstract = some ab) (habne : ab ≠ "") :
    (resolveSource pdfFetch ref).source_type = "metadata"
    ∧ classifySourceType (resolveSource pdfFetch ref).source_type
        = SourceCase.metadata
    ∧ ∀ (q : String) (gen citationOf : String → String),
        (answerFor (resolveSource pdfFetch ref) q gen citationOf).disclaimer
            = some "limited data available"
        ∧ (answerFor (resolveSource pdfFetch ref) q gen citationOf).citation
            = none := by
  have hsrc : resolveSource pdfFetch ref
      = { source_type := "metadata",
          raw_text := some (ref.title ++ "\n\n" ++ ab) } := by
    unfold resolveSource
    rw [hu, hab]
    simp [hne, habne, hfetch]
  refine ⟨by rw [hsrc], by rw [hsrc]; rfl, fun q gen citationOf => ?_⟩
  rw [hsrc]
  unfold answerFor
  simp [isDegraded]

/-- C3, witness for the amended theorem: an unreachable PDF with the
abstract "Studies X." prepares in metadata mode, and a question there is
answered with the disclaimer and no citation. -/
theorem metadata_mode_disclaimer_no_citation_witness :
    (resolveSource (fun _ => none) cexMetaRef).source_type = "metadata"
    ∧ (answerFor (resolveSource (fun _ => none) cexMetaRef)
        "What does the paper study?" (fun _ => "It studies X.")
        (fun _ => "")).disclaimer = some "limited data available"
    ∧ (answerFor (resolveSource (fun _ => none) cexMetaRef)
        "What does the paper study?" (fun _ => "It studies X.")
        (fun _ => "")).citation = none := by
  have h := metadata_mode_disclaimer_no_citation (fun _ => none) cexMetaRef
    "http://x/a.pdf" "Studies X." rfl (by decide) rfl rfl (by decide)
  exact ⟨h.1, (h.2.2 "What does the paper study?" (fun _ => "It studies X.")
    (fun _ => "")).1, (h.2.2 "What does the paper study?"
    (fun _ => "It studies X.") (fun _ => "")).2⟩

/-- C4, counterexample: none of the spec's enumerated `source_type`
values other than by accident select a dedicated branch of the client's
dispatch — `full_text_pdf_primary`, `full_text_pdf_secondary`,
`metadata_only` and `unavailable` all land in the generic fallback
branch, while the dedicated branches are keyed on `semantic_scholar_pdf`,
`arxiv_pdf` and `metadata`. -/
theorem enumerated_tokens_fall_through :
    classifySourceType "full_text_pdf_primary" = SourceCase.fallback
    ∧ classifySourceType "full_text_pdf_secondary" = SourceCase.fallback
    ∧ classifySourceType "metadata_only" = SourceCase.fallback
    ∧ classifySourceType "unavailable" = SourceCase.fallback
    ∧ classifySourceType "semantic_scholar_pdf" = SourceCase.ssPdf
    ∧ classifySourceType "arxiv_pdf" = SourceCase.arxivPdf := by
  decide

/-- C4, amended: the client's `source_type` handling consists of exactly
four cases — two full-text cases keyed `semantic_scholar_pdf` and
`arxiv_pdf`, a metadata-only case keyed `metadata`, and a catch-all
fallback taken by every other value (including `unavailable`). -/
theorem classifySourceType_cases (t : String) :
    (classifySourceType t = SourceCase.ssPdf ↔ t = "semantic_scholar_pdf")
    ∧ (classifySourceType t = SourceCase.arxivPdf ↔ t = "arxiv_pdf")
    ∧ (classifySourceType t = SourceCase.metadata ↔ t = "metadata")
    ∧ (classifySourceType t = SourceCase.fallback ↔
        (t ≠ "semantic_scholar_pdf" ∧ t ≠ "arxiv_pdf" ∧ t ≠ "metadata")) := by
  unfold classifySourceType
  by_cases h1 : t = "semantic_scholar_pdf" <;>
    by_cases h2 : t = "arxiv_pdf" <;>
      by_cases h3 : t = "metadata" <;>
        simp_all

/-- C5: a failed ask call (the promise rejects) appends the per-turn
"Failed to get answer" system message, leaves `paperReady` untouched and
clears `loading`, and a subsequent question on the same paper is issued
again and, when the network call succeeds, appends its answer. -/
theorem generation_failure_is_per_turn (p : Paper) (st : ChatState)
    (input input2 : String) (ans : AnswerResp)
    (hready : st.paperReady = true) (hload : st.loading = false)
    (h1 : jsTrim input ≠ "") (h2 : jsTrim input2 ≠ "") :
    ((handleSendMessage p st input (Except.error ())).1).isSome = true
    ∧ ((handleSendMessage p st input (Except.error ())).2).paperReady = true
    ∧ ((handleSendMessage p st input (Except.error ())).2).loading = false
    ∧ ((handleSendMessage p st input (Except.error ())).2).messages
        = st.messages
          ++ [{ role := .user, content := jsTrim input },
              { role := .sys,
                content := "Failed to get answer. Please try again." }]
    ∧ (handleSendMessage p ((handleSendMessage p st input (Except.error ())).2)
        input2 (Except.ok ans)).1
        = some { pdf_url := resolvedUrl p, question := jsTrim input2 } := by
  unfold handleSendMessage
  simp [hready, hload, h1, h2]

/-- C5, witness: after a failed answer in a ready chat state the next
question is still issued. -/
theorem generation_failure_is_per_turn_witness :
    ((handleSendMessage cexPaperA cexReadyState "Why?" (Except.error ())).2).paperReady
      = true
    ∧ (handleSendMessage cexPaperA
        ((handleSendMessage cexPaperA cexReadyState "Why?" (Except.error ())).2)
        "How?" (Except.ok { answer := "Like so." })).1
        = some { pdf_url := resolvedUrl cexPaperA, question := jsTrim "How?" } := by
  have h := generation_failure_is_per_turn cexPaperA cexReadyState "Why?" "How?"
    { answer := "Like so." } (by decide) (by decide) (by decide) (by decide)
  exact ⟨h.2.1, h.2.2.2.2⟩

/-- C6: while a paper is not ready, both ways of asking a question
(`handleSendMessage` and `quickAsk`) are blocked: no ask request is
issued and the chat state is unchanged, whatever the input or network
behaviour; a request is only ever issued once `paperReady` holds. -/
theorem question_blocked_until_ready (p : Paper) (st : ChatState)
    (input : String) (net : Except Unit AnswerResp)
    (h : st.paperReady = false) :
    handleSendMessage p st input net = (none, st)
    ∧ quickAsk p st input net = (none, st) := by
  unfold handleSendMessage quickAsk
  simp [h]

/-- C6, witness: in the initial (still processing) ChatModal state both
ask paths are blocked. -/
theorem question_blocked_until_ready_witness :
    handleSendMessage cexPaperA initialChatState "Hi"
        (Except.ok { answer := "A." }) = (none, initialChatState)
    ∧ quickAsk cexPaperA initialChatState "Summarize this paper in 5 bullet points."
        (Except.ok { answer := "A." }) = (none, initialChatState) :=
  ⟨(question_blocked_until_ready cexPaperA initialChatState "Hi"
      (Except.ok { answer := "A." }) (by decide)).1,
   (question_blocked_until_ready cexPaperA initialChatState
      "Summarize this paper in 5 bullet points."
      (Except.ok { answer := "A." }) (by decide)).2⟩

/-- Looking up the key just inserted at the head of the index map finds
the inserted entry. -/
theorem lookupIndex_cons_self (pid : String) (e : IndexEntry)
    (l : List (String × IndexEntry)) :
    lookupIndex ((pid, e) :: l) pid = some e := by
  simp [lookupIndex]

/-- C7: `prepare` is idempotent — a second `prepare` call for the same
reference on the state the first call produced returns the same
`source_type`/`ready` outcome and leaves the store unchanged; in
particular the build-count instrumentation does not increase, so the
repeat call is served from the existing index and never rebuilds. -/
theorem prepare_idempotent (pdfFetch : String → Option String)
    (ref : PaperInfo) (s : StoreState) :
    prepare pdfFetch ref (prepare pdfFetch ref s).2 = prepare pdfFetch ref s
    ∧ ((prepare pdfFetch ref (prepare pdfFetch ref s).2).2).buildCount
        = ((prepare pdfFetch ref s).2).buildCount := by
  have hmain : prepare pdfFetch ref (prepare pdfFetch ref s).2
      = prepare pdfFetch ref s := by
    unfold prepare ensureIndex
    cases h : lookupIndex s.indices (paperIdOf (ref.url.getD "")) with
    | some e => simp [h]
    | none => simp [h, lookupIndex_cons_self]
  exact ⟨hmain, by rw [hmain]⟩

/-- C8: when the prepare call throws, the client reports the failure as
an explicit per-call system message for that paper's build and records
no source type — the paper is not silently treated as grounded; the
input is re-enabled so the caller may retry (the message says so). -/
theorem prepare_throw_reports_failure (p : Paper)
    (h : jsTruthy (resolvedUrl p) = true) :
    (initializePaper p (Except.error ())).messages
        = [{ role := .sys, content := prepareFailedMsg }]
    ∧ (initializePaper p (Except.error ())).sourceType = none
    ∧ (initializePaper p (Except.error ())).paperReady = true := by
  unfold initializePaper
  simp [h]

/-- C8, witness at a paper with a resolvable URL. -/
theorem prepare_throw_reports_failure_witness :
    (initializePaper cexPaperA (Except.error ())).messages
        = [{ role := .sys, content := prepareFailedMsg }]
    ∧ (initializePaper cexPaperA (Except.error ())).sourceType = none
    ∧ (initializePaper cexPaperA (Except.error ())).paperReady = true :=
  prepare_throw_reports_failure cexPaperA (by decide)

/-- C9: `searchPapers` never reads the `filters` field of its argument —
two calls agreeing on `query`, `page` and `pageSize` produce identical
runs (same returned or thrown result, same cache key reads, same request
body sent, same cache afterwards) whatever filters either call
supplies. -/
theorem searchPapers_ignores_filters (backend : SearchRequest → Option String)
    (now : Nat) (cache : List CacheEntry) (a1 a2 : SearchArgs)
    (hq : a1.query = a2.query) (hp : a1.page = a2.page)
    (hs : a1.pageSize = a2.pageSize) :
    searchPapers backend now cache a1 = searchPapers backend now cache a2 := by
  rcases a1 with ⟨q1, p1, s1, f1⟩
  rcases a2 with ⟨q2, p2, s2, f2⟩
  simp only at hq hp hs
  subst hq
  subst hp
  subst hs
  rfl

/-- Search arguments without filters. -/
def cexArgsNoFilters : SearchArgs :=
  { query := some "Machine Learning", page := some 2, pageSize := some 5,
    filters := none }

/-- The same search arguments with a non-trivial filter payload. -/
def cexArgsFilters : SearchArgs :=
  { cexArgsNoFilters with
      filters := some { open_access := some true, year_min := some 2019,
                        venues := ["NeurIPS"] } }

/-- C9, witness: a filtered and an unfiltered call with the same query
and paging behave identically. -/
theorem searchPapers_ignores_filters_witness :
    searchPapers (fun _ => some "resp") 0 [] cexArgsFilters
      = searchPapers (fun _ => some "resp") 0 [] cexArgsNoFilters :=
  searchPapers_ignores_filters (fun _ => some "resp") 0 []
    cexArgsFilters cexArgsNoFilters rfl rfl rfl

/-- C10: with an absent, empty or whitespace-only query, `searchPapers`
throws `Query is required` before doing anything else: no cache key is
read, no request is sent, and the cache is left exactly as it was. -/
theorem searchPapers_blank_query_rejected
    (backend : SearchRequest → Option String) (now : Nat)
    (cache : List CacheEntry) (a : SearchArgs)
    (h : a.query = none ∨ ∃ q, a.query = some q ∧ jsTrim q = "") :
    searchPapers backend now cache a
      = { result := Except.error "Query is required", cacheAfter := cache,
          cacheReads := [], fetched := none } := by
  unfold searchPapers
  rcases h with h | ⟨q, hq, ht⟩
  · rw [h]
  · rw [hq]
    simp [ht]

/-- C10, witness: a whitespace-only query is rejected with the cache and
backend untouched. -/
theorem searchPapers_blank_query_rejected_witness :
    searchPapers (fun _ => some "resp") 0 [] { query := some "   " }
      = { result := Except.error "Query is required", cacheAfter := [],
          cacheReads := [], fetched := none } :=
  searchPapers_blank_query_rejected (fun _ => some "resp") 0 []
    { query := some "   " } (Or.inr ⟨"   ", rfl, by decide⟩)

end PaperLens
